import Mathlib

/-!
Shallow embedding of `src/p2p.rs` from gnostr-org/gnostr-registry.

The file embeds the libp2p node bootstrap `start_node` and its event loop.
Library-supplied effects (transport construction, mDNS behaviour creation,
socket binding, dialing) are modelled by an explicit environment `Env`
recording the outcome each call would have; the code under verification is
the deterministic control flow of `start_node` around those calls.
-/

namespace GnostrRegistry

/-- Peer identifier (rendered form); opaque to the control flow of the node. -/
abbrev PeerId := String

/-- One protocol segment of a multiaddress. -/
inductive Protocol where
  | ip4 (host : String)
  | tcp (port : Nat)
  | p2p (peer : PeerId)
  | otherSeg (seg : String)
deriving DecidableEq, Repr

/-- A multiaddress is a sequence of protocol segments. -/
abbrev Multiaddr := List Protocol

/-- Render one segment, `/name/value` style. -/
def Protocol.render : Protocol → String
  | .ip4 host => "/ip4/" ++ host
  | .tcp port => "/tcp/" ++ toString port
  | .p2p peer => "/p2p/" ++ peer
  | .otherSeg seg => "/" ++ seg

/-- Render a multiaddress by concatenating its rendered segments. -/
def Multiaddr.render (m : Multiaddr) : String :=
  String.join (m.map Protocol.render)

/-- `Multiaddr::with`: append one protocol segment at the end. -/
def Multiaddr.withProtocol (m : Multiaddr) (p : Protocol) : Multiaddr :=
  m ++ [p]

/-- Error from the noise handshake subsystem (opaque payload). -/
abbrev NoiseError := String

/-- Error from `Swarm::listen_on` (opaque payload). -/
abbrev ListenTransportError := String

/-- Error from `Swarm::dial` (opaque payload). -/
abbrev DialError := String

/-- I/O error from mDNS behaviour creation (opaque payload). -/
abbrev MdnsCreationError := String

/-- The `P2pError` enum of `p2p.rs`: exactly two variants. -/
inductive P2pError where
  | Transport (source : NoiseError)
  | Listen (source : ListenTransportError)
deriving DecidableEq, Repr

/-- `identify::Config::new(protocol_version, public_key)`. -/
structure IdentifyConfig where
  protocolVersion : String
  publicKey : String
deriving DecidableEq, Repr

/-- `identify::Behaviour::new(config)`. -/
structure IdentifyBehaviour where
  config : IdentifyConfig
deriving DecidableEq, Repr

/-- `mdns::Config::default()` is the only configuration used. -/
structure MdnsConfig where
  isDefault : Bool
deriving DecidableEq, Repr

/-- The mDNS behaviour, keyed by the local peer id. -/
structure MdnsBehaviour where
  config : MdnsConfig
  localPeerId : PeerId
deriving DecidableEq, Repr

/-- `ping::Config`: probe interval and timeout, in seconds. -/
structure PingConfig where
  interval : Nat
  timeout : Nat
deriving DecidableEq, Repr

/-- `ping::Config::new()`: libp2p defaults (interval 15 s, timeout 20 s). -/
def PingConfig.new : PingConfig :=
  { interval := 15, timeout := 20 }

/-- `ping::Config::with_interval`. -/
def PingConfig.withInterval (c : PingConfig) (d : Nat) : PingConfig :=
  { c with interval := d }

/-- `ping::Behaviour::new(config)`. -/
structure PingBehaviour where
  config : PingConfig
deriving DecidableEq, Repr

/-- The combined `#[derive(NetworkBehaviour)] struct Behaviour`. -/
structure Behaviour where
  identify : IdentifyBehaviour
  mdns : MdnsBehaviour
  ping : PingBehaviour
deriving DecidableEq, Repr

/-- The built swarm: local identity, behaviour set, swarm config. -/
structure Swarm where
  localPeerId : PeerId
  behaviour : Behaviour
  idleConnectionTimeout : Nat
deriving DecidableEq, Repr

/-- Outcome of library calls during startup, fixed by the environment:
generated identity, and whether each fallible call succeeds. -/
structure Env where
  keyPublic : String
  localPeerId : PeerId
  transportError : Option NoiseError
  mdnsError : Option MdnsCreationError
  listenError : Multiaddr → Option ListenTransportError

/-- `mdns::tokio::Behaviour::new(config, peer_id)`: fallible, outcome per env. -/
def mdnsBehaviourNew (env : Env) (cfg : MdnsConfig) (pid : PeerId) :
    Except MdnsCreationError MdnsBehaviour :=
  match env.mdnsError with
  | some e => .error e
  | none => .ok { config := cfg, localPeerId := pid }

/-- Result of `start_node`: either a normal return value or a Rust panic
(an `expect` firing), which bypasses the `Result` channel entirely. -/
inductive Outcome (α : Type) where
  | ok (value : α)
  | panicked (msg : String)
deriving DecidableEq, Repr

/-- Events from `ping`: round-trip time (ms) or a failure. -/
inductive PingFailure where
  | timeout
  | unsupported
  | otherFailure (msg : String)
deriving DecidableEq, Repr

/-- `ping::Event`: peer and probe result. -/
structure PingEvent where
  peer : PeerId
  result : Except PingFailure Nat
deriving Repr

/-- mDNS events consumed by the loop. -/
inductive MdnsEvent where
  | discovered (peers : List (PeerId × Multiaddr))
  | expired (peers : List (PeerId × Multiaddr))
deriving DecidableEq, Repr

/-- Identify events; only `Received` is handled by the loop. -/
inductive IdentifyEvent where
  | received (peer : PeerId) (protocolVersion : String) (agentVersion : String)
  | sent (peer : PeerId)
  | pushed (peer : PeerId)
  | errorEvent (peer : PeerId) (msg : String)
deriving DecidableEq, Repr

/-- The derived `BehaviourEvent` sum over the three capabilities. -/
inductive BehaviourEvent where
  | mdns (e : MdnsEvent)
  | identify (e : IdentifyEvent)
  | ping (e : PingEvent)
deriving Repr

/-- The coordinator events the loop can receive.  Variants the source match
does not name (Dialing, IncomingConnection, outgoing errors, ...) are
represented explicitly so the wildcard arm is observable. -/
inductive SwarmEvent where
  | newListenAddr (address : Multiaddr)
  | behaviour (e : BehaviourEvent)
  | connectionEstablished (peer : PeerId)
  | connectionClosed (peer : PeerId) (cause : Option String)
  | dialing (peer : Option PeerId)
  | incomingConnection (localAddr : Multiaddr)
  | outgoingConnectionError (peer : Option PeerId) (msg : String)
  | listenerError (msg : String)
deriving Repr

/-- Environment-fixed outcome of a `Swarm::dial` call. -/
abbrev DialFn := Multiaddr → Except DialError Unit

/-- `swarm.dial(addr).ok()`: the dial result is converted and dropped. -/
def swarmDialOk (dialFn : DialFn) (addr : Multiaddr) : Option Unit :=
  (dialFn addr).toOption

/-- `Debug`-style rendering of the optional close cause. -/
def renderCause : Option String → String
  | none => "None"
  | some c => "Some(" ++ c ++ ")"

/-- What one iteration of the loop body produces: printed lines, issued
dial commands, and whether the arm breaks out of the loop. -/
structure HandlerResult where
  outputs : List String
  dials : List Multiaddr
  exitLoop : Bool
deriving DecidableEq, Repr

/-- Body of one mDNS-discovered iteration: print the peer and dial its
address best-effort, dropping the dial result. -/
def handleDiscoveredPeer (dialFn : DialFn) (pa : PeerId × Multiaddr) :
    String × Multiaddr :=
  let line := "mDNS discovered peer: " ++ pa.1 ++ " at " ++ Multiaddr.render pa.2
  let _ := swarmDialOk dialFn pa.2
  (line, pa.2)

/-- The event-loop body of `start_node`: one `match` over the next event. -/
def handleEvent (sw : Swarm) (dialFn : DialFn) : SwarmEvent → HandlerResult
  | .newListenAddr address =>
    let full_addr := address.withProtocol (Protocol.p2p sw.localPeerId)
    { outputs := ["Listening on " ++ full_addr.render], dials := [], exitLoop := false }
  | .behaviour (.mdns (.discovered peers)) =>
    let handled := peers.map (handleDiscoveredPeer dialFn)
    { outputs := handled.map Prod.fst, dials := handled.map Prod.snd, exitLoop := false }
  | .behaviour (.mdns (.expired peers)) =>
    { outputs := peers.map (fun pa =>
        "mDNS peer expired: " ++ pa.1 ++ " at " ++ Multiaddr.render pa.2),
      dials := [], exitLoop := false }
  | .behaviour (.identify (.received peer protocolVersion agentVersion)) =>
    { outputs := ["Identified peer " ++ peer ++ ": " ++ protocolVersion
        ++ " (" ++ agentVersion ++ ")"],
      dials := [], exitLoop := false }
  | .behaviour (.ping { peer, result := .ok rtt }) =>
    { outputs := ["Ping from " ++ peer ++ ": " ++ toString rtt ++ "ms"],
      dials := [], exitLoop := false }
  | .connectionEstablished peer =>
    { outputs := ["Connected to " ++ peer], dials := [], exitLoop := false }
  | .connectionClosed peer cause =>
    { outputs := ["Disconnected from " ++ peer ++ ": " ++ renderCause cause],
      dials := [], exitLoop := false }
  | _ => { outputs := [], dials := [], exitLoop := false }

/-- Whether the source `match` names this event in a non-wildcard arm. -/
def handledEvent : SwarmEvent → Bool
  | .newListenAddr _ => true
  | .behaviour (.mdns _) => true
  | .behaviour (.identify (.received _ _ _)) => true
  | .behaviour (.ping { result := .ok _, .. }) => true
  | .connectionEstablished _ => true
  | .connectionClosed _ _ => true
  | _ => false

/-- Run of the event loop over a finite prefix of the event stream. -/
structure LoopRun where
  outputs : List String
  dials : List Multiaddr
  exited : Bool
deriving DecidableEq, Repr

/-- Fold the loop body over a finite event trace, stopping if an arm exits. -/
def runLoop (sw : Swarm) (dialFn : DialFn) : List SwarmEvent → LoopRun
  | [] => { outputs := [], dials := [], exited := false }
  | ev :: evs =>
    let r := handleEvent sw dialFn ev
    if r.exitLoop then
      { outputs := r.outputs, dials := r.dials, exited := true }
    else
      let rest := runLoop sw dialFn evs
      { outputs := r.outputs ++ rest.outputs, dials := r.dials ++ rest.dials,
        exited := rest.exited }

/-- The identify protocol string built in the behaviour closure:
`format!("/margo/{}", env!("CARGO_PKG_VERSION"))`. -/
def identifyProtocolString (cargoPkgVersion : String) : String :=
  "/margo/" ++ cargoPkgVersion

/-- `start_node` up to entering the event loop: startup log line, transport
construction, behaviour closure (with its two `expect`s), listen, peer-id
log line.  Returns the printed lines together with either the built swarm
(the loop then runs over it) or the propagated `P2pError`. -/
def start_node (listen_addr : Multiaddr) (registry_path : String)
    (cargoPkgVersion : String) (env : Env) :
    Outcome (List String × Except P2pError Swarm) :=
  let startupLine :=
    "Starting margo P2P node for registry at `" ++ registry_path ++ "`"
  match env.transportError with
  | some e => .ok ([startupLine], .error (P2pError.Transport e))
  | none =>
    let local_peer_id := env.localPeerId
    let identify : IdentifyBehaviour :=
      { config := { protocolVersion := identifyProtocolString cargoPkgVersion,
                    publicKey := env.keyPublic } }
    match mdnsBehaviourNew env { isDefault := true } local_peer_id with
    | .error _ => .panicked "mDNS behaviour creation should not fail"
    | .ok mdns =>
      let ping : PingBehaviour := { config := PingConfig.new.withInterval 15 }
      let behaviour : Behaviour := { identify, mdns, ping }
      let sw : Swarm :=
        { localPeerId := local_peer_id, behaviour, idleConnectionTimeout := 60 }
      match env.listenError listen_addr with
      | some e => .ok ([startupLine], .error (P2pError.Listen e))
      | none =>
        .ok ([startupLine, "Local peer ID: " ++ local_peer_id], .ok sw)

/-- Drop the registry-path-dependent startup line from a `start_node`
result, keeping everything else. -/
def dropStartupLine (o : Outcome (List String × Except P2pError Swarm)) :
    Outcome (List String × Except P2pError Swarm) :=
  match o with
  | .ok (outs, r) => .ok (outs.drop 1, r)
  | .panicked m => .panicked m

/-! Concrete instances used by witnesses and counterexamples. -/

/-- An environment where every fallible startup call succeeds. -/
def env0 : Env :=
  { keyPublic := "pk", localPeerId := "peer0",
    transportError := none, mdnsError := none, listenError := fun _ => none }

/-- Environment whose transport construction fails. -/
def envT : Env := { env0 with transportError := some "noise failure" }

/-- Environment whose mDNS behaviour creation fails. -/
def envM : Env := { env0 with mdnsError := some "mdns io failure" }

/-- Environment where binding any listen address fails. -/
def envL : Env := { env0 with listenError := fun _ => some "bind failure" }

/-- A concrete listen address. -/
def addr0 : Multiaddr := [Protocol.ip4 "127.0.0.1", Protocol.tcp 4001]

/-- A dial function where every dial succeeds. -/
def dial0 : DialFn := fun _ => .ok ()

/-- The swarm `start_node` builds in `env0` with package version 0.1.0. -/
def sw0 : Swarm :=
  { localPeerId := "peer0",
    behaviour :=
      { identify := { config := { protocolVersion := "/margo/0.1.0", publicKey := "pk" } },
        mdns := { config := { isDefault := true }, localPeerId := "peer0" },
        ping := { config := PingConfig.new.withInterval 15 } },
    idleConnectionTimeout := 60 }

/-- A ping event carrying a failure marker instead of a timing value. -/
def pingFailEvent : SwarmEvent :=
  .behaviour (.ping { peer := "peerB", result := .error PingFailure.timeout })

/-! Helper lemmas shared by the claims. -/

/-- No arm of the loop body breaks out of the loop. -/
theorem handleEvent_exitLoop (sw : Swarm) (dialFn : DialFn) (ev : SwarmEvent) :
    (handleEvent sw dialFn ev).exitLoop = false := by
  rcases ev with a | be | p | pc | d | i | o | l
  case behaviour =>
    rcases be with me | ie | pe
    · rcases me with ps | ps <;> rfl
    · rcases ie with ⟨p, pv, av⟩ | p | p | ⟨p, m⟩ <;> rfl
    · rcases pe with ⟨p, r⟩
      rcases r with f | rtt <;> rfl
  all_goals rfl

/-- The loop consumes any finite event trace without exiting. -/
theorem runLoop_exited (sw : Swarm) (dialFn : DialFn) :
    ∀ trace : List SwarmEvent, (runLoop sw dialFn trace).exited = false := by
  intro trace
  induction trace with
  | nil => rfl
  | cons ev evs ih => simp [runLoop, handleEvent_exitLoop, ih]

/-- Both `P2pError` variants are one of its two declared kinds. -/
theorem P2pError.cases (e : P2pError) :
    (∃ s, e = P2pError.Transport s) ∨ (∃ s, e = P2pError.Listen s) := by
  cases e with
  | Transport s => exact .inl ⟨s, rfl⟩
  | Listen s => exact .inr ⟨s, rfl⟩

/-- The swarm value assembled by the builder chain of `start_node`. -/
def builtSwarm (env : Env) (cargoPkgVersion : String) : Swarm :=
  { localPeerId := env.localPeerId,
    behaviour :=
      { identify := { config :=
          { protocolVersion := identifyProtocolString cargoPkgVersion,
            publicKey := env.keyPublic } },
        mdns := { config := { isDefault := true }, localPeerId := env.localPeerId },
        ping := { config := PingConfig.new.withInterval 15 } },
    idleConnectionTimeout := 60 }

/-- Inversion of a fully successful `start_node` run: all three fallible
calls succeeded, and the outputs and swarm are the constructed values. -/
theorem start_node_ok_inv (listen_addr : Multiaddr)
    (registry_path cargoPkgVersion : String) (env : Env)
    (outs : List String) (sw : Swarm)
    (h : start_node listen_addr registry_path cargoPkgVersion env
      = .ok (outs, .ok sw)) :
    env.transportError = none ∧ env.mdnsError = none ∧
    env.listenError listen_addr = none ∧
    outs = ["Starting margo P2P node for registry at `" ++ registry_path ++ "`",
      "Local peer ID: " ++ env.localPeerId] ∧
    sw = builtSwarm env cargoPkgVersion := by
  cases hte : env.transportError with
  | some e => simp [start_node, hte] at h
  | none =>
    cases hme : env.mdnsError with
    | some e => simp [start_node, mdnsBehaviourNew, hte, hme] at h
    | none =>
      cases hle : env.listenError listen_addr with
      | some e => simp [start_node, mdnsBehaviourNew, hte, hme, hle] at h
      | none =>
        simp [start_node, mdnsBehaviourNew, hte, hme, hle] at h
        obtain ⟨h1, h2⟩ := h
        refine ⟨rfl, rfl, rfl, h1.symm, ?_⟩
        simp [builtSwarm, identifyProtocolString, ← h2]

/-! The claims. -/

/-- Claim C1: every error value `start_node` returns to the caller is one
of the two fatal kinds, `Transport` or `Listen`; when neither failure
occurs, startup succeeds and the event loop never exits on any finite
event trace. -/
theorem start_node_failure_surface (listen_addr : Multiaddr)
    (registry_path cargoPkgVersion : String) (env : Env) :
    (∀ outs e, start_node listen_addr registry_path cargoPkgVersion env
        = .ok (outs, .error e) →
      (∃ s, e = P2pError.Transport s) ∨ (∃ s, e = P2pError.Listen s)) ∧
    (env.transportError = none → env.mdnsError = none →
      env.listenError listen_addr = none →
      ∃ outs sw, start_node listen_addr registry_path cargoPkgVersion env
          = .ok (outs, .ok sw) ∧
        ∀ dialFn trace, (runLoop sw dialFn trace).exited = false) := by
  constructor
  · intro outs e _
    exact P2pError.cases e
  · intro ht hm hl
    refine ⟨["Starting margo P2P node for registry at `" ++ registry_path ++ "`",
        "Local peer ID: " ++ env.localPeerId],
      builtSwarm env cargoPkgVersion, ?_,
      fun dialFn trace => runLoop_exited _ dialFn trace⟩
    simp [start_node, mdnsBehaviourNew, builtSwarm, identifyProtocolString,
      ht, hm, hl]

/-- Witness for C1 at concrete inputs: a transport failure is of kind
`Transport`, and in a fully healthy environment startup succeeds and the
loop never exits. -/
theorem start_node_failure_surface_witness :
    ((∃ s, P2pError.Transport "noise failure" = P2pError.Transport s) ∨
      (∃ s, P2pError.Transport "noise failure" = P2pError.Listen s)) ∧
    (∃ outs sw, start_node addr0 "reg" "0.1.0" env0 = .ok (outs, .ok sw) ∧
      ∀ dialFn trace, (runLoop sw dialFn trace).exited = false) :=
  ⟨(start_node_failure_surface addr0 "reg" "0.1.0" envT).1
      ["Starting margo P2P node for registry at `" ++ "reg" ++ "`"]
      (P2pError.Transport "noise failure") rfl,
    (start_node_failure_surface addr0 "reg" "0.1.0" env0).2 rfl rfl rfl⟩

/-- Claim C2: when binding the listen address fails, `start_node` returns
the `Listen` error, and its only output is the pre-listen startup line —
no local-peer-id line is printed and no event loop run is reached. -/
theorem listen_failure_no_loop (listen_addr : Multiaddr)
    (registry_path cargoPkgVersion : String) (env : Env)
    (e : ListenTransportError)
    (ht : env.transportError = none) (hm : env.mdnsError = none)
    (hl : env.listenError listen_addr = some e) :
    start_node listen_addr registry_path cargoPkgVersion env =
      .ok (["Starting margo P2P node for registry at `" ++ registry_path ++ "`"],
        .error (P2pError.Listen e)) := by
  simp [start_node, mdnsBehaviourNew, ht, hm, hl]

/-- Witness for C2: in an environment whose bind fails, `start_node`
returns exactly the `Listen` error with only the startup line printed. -/
theorem listen_failure_no_loop_witness :
    start_node addr0 "reg" "0.1.0" envL =
      .ok (["Starting margo P2P node for registry at `" ++ "reg" ++ "`"],
        .error (P2pError.Listen "bind failure")) :=
  listen_failure_no_loop addr0 "reg" "0.1.0" envL "bind failure" rfl rfl rfl

/-- Counterexample to C3 as stated: a liveness result carrying a failure
marker is matched by the wildcard arm and produces no status line at all —
it is silently dropped. -/
theorem ping_failure_dropped :
    (handleEvent sw0 dial0 pingFailEvent).outputs = [] := rfl

/-- Claim C3 as amended: a liveness result carrying a round-trip timing
value is surfaced as exactly one status line, while a liveness result
carrying a failure marker is silently ignored (it produces no output). -/
theorem ping_result_surfacing (sw : Swarm) (dialFn : DialFn) (peer : PeerId) :
    (∀ rtt : Nat,
      (handleEvent sw dialFn
          (.behaviour (.ping { peer, result := .ok rtt }))).outputs
        = ["Ping from " ++ peer ++ ": " ++ toString rtt ++ "ms"]) ∧
    (∀ f : PingFailure,
      (handleEvent sw dialFn
          (.behaviour (.ping { peer, result := .error f }))).outputs = []) :=
  ⟨fun _ => rfl, fun _ => rfl⟩

/-- Claim C4: a mDNS `Discovered` event makes the loop dial the address of
every discovered (peer, address) pair, the iteration never exits the loop,
and the handler result is identical for any two dial-outcome environments:
dial failures are invisible to the loop. -/
theorem discovered_dial_each (sw : Swarm) (dialFn dialFn2 : DialFn)
    (peers : List (PeerId × Multiaddr)) :
    (handleEvent sw dialFn (.behaviour (.mdns (.discovered peers)))).dials
        = peers.map Prod.snd ∧
    (handleEvent sw dialFn (.behaviour (.mdns (.discovered peers)))).exitLoop
        = false ∧
    handleEvent sw dialFn (.behaviour (.mdns (.discovered peers)))
        = handleEvent sw dialFn2 (.behaviour (.mdns (.discovered peers))) := by
  refine ⟨?_, rfl, rfl⟩
  simp [handleEvent, handleDiscoveredPeer]

/-- Claim C5: a `NewListenAddr` event produces exactly one status line,
carrying the bound address with the local peer id appended as a trailing
`p2p` component. -/
theorem new_listen_addr_line (sw : Swarm) (dialFn : DialFn)
    (address : Multiaddr) :
    (handleEvent sw dialFn (.newListenAddr address)).outputs
      = ["Listening on "
          ++ (address.withProtocol (Protocol.p2p sw.localPeerId)).render] ∧
    (handleEvent sw dialFn (.newListenAddr address)).outputs.length = 1 :=
  ⟨rfl, rfl⟩

/-- Claim C6: whenever `start_node` builds its swarm, the liveness-probing
capability is configured with a probe interval of exactly 15 seconds. -/
theorem ping_interval_fifteen (listen_addr : Multiaddr)
    (registry_path cargoPkgVersion : String) (env : Env)
    (outs : List String) (sw : Swarm)
    (h : start_node listen_addr registry_path cargoPkgVersion env
      = .ok (outs, .ok sw)) :
    sw.behaviour.ping.config.interval = 15 := by
  obtain ⟨-, -, -, -, rfl⟩ := start_node_ok_inv _ _ _ _ _ _ h
  rfl

/-- Witness for C6: the swarm built in the healthy environment has ping
interval 15. -/
theorem ping_interval_fifteen_witness :
    (builtSwarm env0 "0.1.0").behaviour.ping.config.interval = 15 :=
  ping_interval_fifteen addr0 "reg" "0.1.0" env0
    ["Starting margo P2P node for registry at `" ++ "reg" ++ "`",
      "Local peer ID: " ++ "peer0"] (builtSwarm env0 "0.1.0") (by rfl)

/-- Claim C7: the identity-exchange protocol string configured for the
node is the namespace-and-version form: the string "/margo/" followed by
the package version. -/
theorem identify_protocol_namespaced (listen_addr : Multiaddr)
    (registry_path cargoPkgVersion : String) (env : Env)
    (outs : List String) (sw : Swarm)
    (h : start_node listen_addr registry_path cargoPkgVersion env
      = .ok (outs, .ok sw)) :
    sw.behaviour.identify.config.protocolVersion
      = "/margo/" ++ cargoPkgVersion := by
  obtain ⟨-, -, -, -, rfl⟩ := start_node_ok_inv _ _ _ _ _ _ h
  rfl

/-- Witness for C7: the swarm built with package version 0.1.0 carries the
protocol string "/margo/" ++ "0.1.0". -/
theorem identify_protocol_namespaced_witness :
    (builtSwarm env0 "0.1.0").behaviour.identify.config.protocolVersion
      = "/margo/" ++ "0.1.0" :=
  identify_protocol_namespaced addr0 "reg" "0.1.0" env0
    ["Starting margo P2P node for registry at `" ++ "reg" ++ "`",
      "Local peer ID: " ++ "peer0"] (builtSwarm env0 "0.1.0") (by rfl)

/-- Claim C8: every event kind not named by a non-wildcard arm of the
dispatch is silently ignored — no output, no dial command, no exit — and
no arm of the loop body ever exits the loop. -/
theorem unhandled_ignored_loop_total (sw : Swarm) (dialFn : DialFn) :
    (∀ ev, handledEvent ev = false →
      handleEvent sw dialFn ev
        = ({ outputs := [], dials := [], exitLoop := false } : HandlerResult)) ∧
    (∀ ev, (handleEvent sw dialFn ev).exitLoop = false) := by
  constructor
  · intro ev h
    rcases ev with a | be | p | ⟨p, c⟩ | d | i | ⟨o1, o2⟩ | l
    · simp [handledEvent] at h
    · rcases be with me | ie | pe
      · rcases me with ps | ps <;> simp [handledEvent] at h
      · rcases ie with ⟨p, pv, av⟩ | p | p | ⟨p, m⟩
        · simp [handledEvent] at h
        · rfl
        · rfl
        · rfl
      · rcases pe with ⟨p, r⟩
        rcases r with f | rtt
        · rfl
        · simp [handledEvent] at h
    · simp [handledEvent] at h
    · simp [handledEvent] at h
    · rfl
    · rfl
    · rfl
    · rfl
  · exact handleEvent_exitLoop sw dialFn

/-- Witness for C8: the unmatched `Dialing` event is ignored and does not
exit the loop. -/
theorem unhandled_ignored_loop_total_witness :
    handleEvent sw0 dial0 (SwarmEvent.dialing none)
      = ({ outputs := [], dials := [], exitLoop := false } : HandlerResult) ∧
    (handleEvent sw0 dial0 (SwarmEvent.dialing none)).exitLoop = false :=
  ⟨(unhandled_ignored_loop_total sw0 dial0).1 (SwarmEvent.dialing none) rfl,
    (unhandled_ignored_loop_total sw0 dial0).2 (SwarmEvent.dialing none)⟩

/-- Claim C9: the registry path influences only the initial startup log
line: dropping that line, two runs of `start_node` differing only in the
registry path give identical results — the same error, or the same
constructed swarm and the same remaining output. -/
theorem registry_path_noninterference (listen_addr : Multiaddr)
    (cargoPkgVersion : String) (env : Env) (p1 p2 : String) :
    dropStartupLine (start_node listen_addr p1 cargoPkgVersion env)
      = dropStartupLine (start_node listen_addr p2 cargoPkgVersion env) := by
  cases hte : env.transportError with
  | some e => simp [start_node, dropStartupLine, hte]
  | none =>
    cases hme : env.mdnsError with
    | some e => simp [start_node, mdnsBehaviourNew, dropStartupLine, hte, hme]
    | none =>
      cases hle : env.listenError listen_addr with
      | some e =>
        simp [start_node, mdnsBehaviourNew, dropStartupLine, hte, hme, hle]
      | none =>
        simp [start_node, mdnsBehaviourNew, dropStartupLine, hte, hme, hle]

/-- Claim C10: the mDNS `expect` is the only reachable panic of startup
(behaviour construction is infallible by type), so in a normal environment
— mDNS behaviour creation succeeds — `start_node` never panics and aborts
only through the two declared error kinds, while an environment whose mDNS
creation fails panics instead of returning a `P2pError`. -/
theorem expect_paths_unreachable (listen_addr : Multiaddr)
    (registry_path cargoPkgVersion : String) (env : Env) :
    (env.mdnsError = none →
      ∃ outs r, start_node listen_addr registry_path cargoPkgVersion env
          = .ok (outs, r) ∧
        ∀ e, r = .error e →
          (∃ s, e = P2pError.Transport s) ∨ (∃ s, e = P2pError.Listen s)) ∧
    (∀ m, env.transportError = none → env.mdnsError = some m →
      start_node listen_addr registry_path cargoPkgVersion env
        = .panicked "mDNS behaviour creation should not fail") := by
  constructor
  · intro hm
    cases hte : env.transportError with
    | some e =>
      refine ⟨["Starting margo P2P node for registry at `" ++ registry_path ++ "`"],
        .error (P2pError.Transport e), ?_, fun e2 _ => P2pError.cases e2⟩
      simp [start_node, hte]
    | none =>
      cases hle : env.listenError listen_addr with
      | some e =>
        refine ⟨["Starting margo P2P node for registry at `" ++ registry_path ++ "`"],
          .error (P2pError.Listen e), ?_, fun e2 _ => P2pError.cases e2⟩
        simp [start_node, mdnsBehaviourNew, hte, hm, hle]
      | none =>
        refine ⟨["Starting margo P2P node for registry at `" ++ registry_path ++ "`",
            "Local peer ID: " ++ env.localPeerId],
          .ok (builtSwarm env cargoPkgVersion), ?_, fun e2 _ => P2pError.cases e2⟩
        simp [start_node, mdnsBehaviourNew, builtSwarm, identifyProtocolString,
          hte, hm, hle]
  · intro m ht hm
    simp [start_node, mdnsBehaviourNew, ht, hm]

/-- Witness for C10: in the healthy environment startup returns without
panicking, and in the mDNS-failing environment it panics with the exact
expect message. -/
theorem expect_paths_unreachable_witness :
    (∃ outs r, start_node addr0 "reg" "0.1.0" env0 = .ok (outs, r) ∧
      ∀ e, r = .error e →
        (∃ s, e = P2pError.Transport s) ∨ (∃ s, e = P2pError.Listen s)) ∧
    start_node addr0 "reg" "0.1.0" envM
      = .panicked "mDNS behaviour creation should not fail" :=
  ⟨(expect_paths_unreachable addr0 "reg" "0.1.0" env0).1 rfl,
    (expect_paths_unreachable addr0 "reg" "0.1.0" envM).2 "mdns io failure" rfl rfl⟩

end GnostrRegistry
